import Mathlib

/-!
Verification of the bifold-wallet workflow/chat subsystem.

This file shallowly embeds the parts of the TypeScript source that the
verified properties talk about:

* the JSON value model used by the message handlers (`Json`, with JavaScript
  truthiness and property access),
* `ActionMenuWorkflowHandler` (canHandle / getRole / shouldDisplay /
  parseActionMenu / handleActionButtonPress) from the ActionMenuHandler file,
* `BasicMessageWorkflowHandler` (canHandle / getRole / shouldDisplay /
  isActionMenuMessage / isJsonMessage) from the BasicMessageHandler file,
* `detectCredentialType` from CredentialRenderer.tsx,
* `KanonOCABundleResolver` (resolve / fetchKanonOCA /
  convertKanonOverlayToOCABundle / processBundle) from Chat.tsx,
  together with a cooperative-interleaving model of two concurrent
  `resolve` calls.

`JSON.parse` is a JavaScript builtin; it is represented by an explicit
parameter `parse : String → Option Json` (`none` models a thrown
SyntaxError), so every theorem about the handlers quantifies over the
parse function.  `String.prototype.toLowerCase` / `includes` are embedded
for the ASCII range, which covers every literal the source compares
against.
-/

/-- JSON values as produced by `JSON.parse`.  Numbers are modelled as
integers (no claim involves fractional numbers). -/
inductive Json where
  | null : Json
  | bool (b : Bool) : Json
  | num (n : Int) : Json
  | str (s : String) : Json
  | arr (elems : List Json) : Json
  | obj (fields : List (String × Json)) : Json

/-- First-match association lookup (JSON.parse keeps a single binding per
key, so object field lookup is unambiguous for its outputs). -/
def lookupField {α : Type} : List (String × α) → String → Option α
  | [], _ => none
  | (k, v) :: rest, name => if k = name then some v else lookupField rest name

/-- JavaScript truthiness of a JSON value. -/
def Json.truthy : Json → Bool
  | .null => false
  | .bool b => b
  | .num n => n != 0
  | .str s => !s.isEmpty
  | .arr _ => true
  | .obj _ => true

/-- Property access `v.name`: `none` models `undefined` (non-objects have
no own `displayData`/`workflowID` properties). -/
def Json.getField : Json → String → Option Json
  | .obj fields, name => lookupField fields name
  | _, _ => none

/-- `Array.isArray`. -/
def Json.isArray : Json → Bool
  | .arr _ => true
  | _ => false

/-- The nullish-coalescing operator `x ?? d` applied to a property access
(`none` = `undefined`). -/
def nullishCoalesce (v : Option Json) (dflt : Json) : Json :=
  match v with
  | none => dflt
  | some .null => dflt
  | some j => j

/-- ASCII lower-casing of one character, the fragment of
`String.prototype.toLowerCase` exercised by the source's literals. -/
def asciiCharToLower (c : Char) : Char :=
  if 'A' ≤ c ∧ c ≤ 'Z' then Char.ofNat (c.toNat + 32) else c

/-- `String.prototype.toLowerCase` on ASCII strings. -/
def asciiToLower (s : String) : String :=
  String.mk (s.data.map asciiCharToLower)

/-- Helper for `String.prototype.includes` on the underlying character
lists. -/
def containsSubstrChars (s sub : List Char) : Bool :=
  match s with
  | [] => sub.isEmpty
  | _ :: rest => (sub.isPrefixOf s) || containsSubstrChars rest sub

/-- `haystack.includes(needle)`. -/
def containsSubstr (haystack needle : String) : Bool :=
  containsSubstrChars haystack.data needle.data

/-- JavaScript string truthiness of an optional string field
(`undefined` and `''` are falsy). -/
def strTruthy : Option String → Bool
  | none => false
  | some s => !s.isEmpty

/-! ## BasicMessageRecord and chat roles -/

/-- `BasicMessageRole` from credo-ts. -/
inductive BasicMessageRole where
  | sender : BasicMessageRole
  | receiver : BasicMessageRole
deriving DecidableEq, Repr

/-- `Role` from types/chat: `me` is the local user, `them` the peer. -/
inductive Role where
  | me : Role
  | them : Role
deriving DecidableEq, Repr

/-- The fields of a credo-ts `BasicMessageRecord` the handlers read. -/
structure BasicMessageRecord where
  id : String
  content : String
  role : BasicMessageRole

/-- An `ActionMenuMessage` as produced by `parseActionMenu`: the
`displayData` array together with the `workflowID` field (kept as a JSON
value; the source's `?? ''` only replaces null/undefined). -/
structure ActionMenuMessage where
  displayData : List Json
  workflowID : Json

/-! ## ActionMenuWorkflowHandler -/

namespace ActionMenuWorkflowHandler

/-- `parseActionMenu`: JSON.parse the content inside try/catch and accept
it when the parsed value is truthy and its `displayData` property is an
array (`if (parsed && Array.isArray(parsed.displayData))`). -/
def parseActionMenu (parse : String → Option Json) (content : String) :
    Option ActionMenuMessage :=
  match parse content with
  | none => none
  | some parsed =>
    if parsed.truthy then
      match parsed.getField "displayData" with
      | some (Json.arr items) =>
        some { displayData := items
               workflowID := nullishCoalesce (parsed.getField "workflowID") (Json.str "") }
      | _ => none
    else none

/-- `canHandle`: the record is a BasicMessageRecord (guaranteed by the
model's type) whose content parses as an action menu. -/
def canHandle (parse : String → Option Json) (record : BasicMessageRecord) : Bool :=
  (parseActionMenu parse record.content).isSome

/-- `getRole`. -/
def getRole (record : BasicMessageRecord) : Role :=
  if record.role = BasicMessageRole.sender then Role.me else Role.them

/-- `shouldDisplay`: only show action menus from the other party. -/
def shouldDisplay (record : BasicMessageRecord) : Bool :=
  getRole record = Role.them

end ActionMenuWorkflowHandler

/-! ## BasicMessageWorkflowHandler -/

namespace BasicMessageWorkflowHandler

/-- `isActionMenuMessage`: `parsed && Array.isArray(parsed.displayData)`
inside try/catch, with the returned value used for its truthiness. -/
def isActionMenuMessage (parse : String → Option Json) (record : BasicMessageRecord) : Bool :=
  match parse record.content with
  | none => false
  | some parsed =>
    parsed.truthy &&
      (match parsed.getField "displayData" with
       | some v => v.isArray
       | none => false)

/-- `isJsonMessage`: `JSON.parse(content)` succeeds. -/
def isJsonMessage (parse : String → Option Json) (content : String) : Bool :=
  (parse content).isSome

/-- `canHandle`: a BasicMessageRecord that is not an action-menu message. -/
def canHandle (parse : String → Option Json) (record : BasicMessageRecord) : Bool :=
  !(isActionMenuMessage parse record)

/-- `getRole`. -/
def getRole (record : BasicMessageRecord) : Role :=
  if record.role = BasicMessageRole.sender then Role.me else Role.them

/-- `shouldDisplay`: suppress the self-sent `:menu` sentinel, any message
containing `received your message` (case-insensitively), and self-sent
JSON payloads. -/
def shouldDisplay (parse : String → Option Json) (record : BasicMessageRecord) : Bool :=
  let role := getRole record
  if role = Role.me ∧ record.content = ":menu" then false
  else if containsSubstr (asciiToLower record.content) "received your message" then false
  else if role = Role.me ∧ isJsonMessage parse record.content then false
  else true

end BasicMessageWorkflowHandler

/-- Modelled from the spec: `WorkflowRegistry.classify` (the registry class
itself is not among the given source files; §4.1 specifies it as returning
the first handler of the ordered registration list whose `canHandle`
predicate is true, or none). -/
def classifyFirstMatch (handlers : List (BasicMessageRecord → Bool))
    (record : BasicMessageRecord) : Option Nat :=
  match handlers with
  | [] => none
  | h :: rest =>
    if h record then some 0
    else (classifyFirstMatch rest record).map (· + 1)

/-! ## CredentialRenderer: detectCredentialType -/

/-- One entry of `credentialAttributes`. -/
structure CredentialAttribute where
  name : String
  value : String

/-- The fields of a `CredentialExchangeRecord` read by
`detectCredentialType`: the anoncreds credential-definition id from the
record metadata (`'' `when absent, as in the source's `|| ''`) and the
attribute list (`credential.credentialAttributes || []`). -/
structure CredentialExchangeRecord where
  credentialDefinitionId : String
  credentialAttributes : List CredentialAttribute

/-- `CredentialDisplayType`. -/
inductive CredentialDisplayType where
  | STUDENT_ID : CredentialDisplayType
  | TRANSCRIPT : CredentialDisplayType
  | DEFAULT : CredentialDisplayType
deriving DecidableEq, Repr

/-- The Transcript condition of `detectCredentialType` (its first guard). -/
def transcriptCondition (credential : CredentialExchangeRecord) : Bool :=
  (credential.credentialAttributes.any fun attr =>
    containsSubstr (asciiToLower attr.name) "gpa" ||
    containsSubstr (asciiToLower attr.name) "termgpa" ||
    containsSubstr (asciiToLower attr.name) "cumulativegpa") ||
  (credential.credentialAttributes.any fun attr =>
    asciiToLower attr.name == "yearstart" || asciiToLower attr.name == "year_start") ||
  containsSubstr (asciiToLower credential.credentialDefinitionId) "transcript"

/-- The student-identifier condition of `detectCredentialType`. -/
def hasStudentIdCondition (credential : CredentialExchangeRecord) : Bool :=
  credential.credentialAttributes.any fun attr =>
    asciiToLower attr.name == "studentid" ||
    asciiToLower attr.name == "studentnumber" ||
    asciiToLower attr.name == "student_id"

/-- The name-evidence condition the code actually uses: a fullname alias,
or any single attribute named `first` or `last`. -/
def hasStudentNameCondition (credential : CredentialExchangeRecord) : Bool :=
  credential.credentialAttributes.any fun attr =>
    asciiToLower attr.name == "fullname" ||
    asciiToLower attr.name == "studentfullname" ||
    (asciiToLower attr.name == "first" || asciiToLower attr.name == "last")

/-- The credential-definition-id allow-list condition. -/
def credDefIdAllowList (credential : CredentialExchangeRecord) : Bool :=
  containsSubstr credential.credentialDefinitionId "NHCS" ||
  containsSubstr credential.credentialDefinitionId "PCS" ||
  containsSubstr credential.credentialDefinitionId "M-DCPS" ||
  containsSubstr credential.credentialDefinitionId "CFCC" ||
  containsSubstr credential.credentialDefinitionId "Pender" ||
  containsSubstr credential.credentialDefinitionId "Miami" ||
  containsSubstr credential.credentialDefinitionId "Hanover"

/-- `detectCredentialType` from CredentialRenderer.tsx.  Its local consts
(`hasGPA`/`hasYearStart`, folded into `transcriptCondition`, and
`hasStudentId`/`hasStudentName`) are hoisted to the named condition
definitions above; the branch structure is the source's. -/
def detectCredentialType (credential : CredentialExchangeRecord) : CredentialDisplayType :=
  if transcriptCondition credential then
    CredentialDisplayType.TRANSCRIPT
  else if hasStudentIdCondition credential && hasStudentNameCondition credential then
    CredentialDisplayType.STUDENT_ID
  else if credDefIdAllowList credential then
    CredentialDisplayType.STUDENT_ID
  else CredentialDisplayType.DEFAULT

/-- The name evidence as the claim words it: a fullname alias, or a
first+last PAIR (both an attribute named `first` and one named `last`). -/
def claimedStudentNameEvidence (credential : CredentialExchangeRecord) : Bool :=
  (credential.credentialAttributes.any fun attr =>
    asciiToLower attr.name == "fullname" || asciiToLower attr.name == "studentfullname") ||
  ((credential.credentialAttributes.any fun attr => asciiToLower attr.name == "first") &&
   (credential.credentialAttributes.any fun attr => asciiToLower attr.name == "last"))

/-- The Identity-card classifier as the claim words it (pair-based name
evidence), to be compared against `detectCredentialType`. -/
def claimedIdentityCardCondition (credential : CredentialExchangeRecord) : Bool :=
  (hasStudentIdCondition credential && claimedStudentNameEvidence credential) ||
  credDefIdAllowList credential

/-! ## KanonOCABundleResolver: data model -/

/-- JavaScript `a || dflt` on an optional string field (`undefined` and
`''` are falsy). -/
def jsOr (a : Option String) (dflt : String) : String :=
  match a with
  | some s => if s.isEmpty then dflt else s
  | none => dflt

/-- JavaScript `a || b || dflt` on two optional string fields. -/
def jsOr2 (a b : Option String) (dflt : String) : String :=
  jsOr a (jsOr b dflt)

/-- A `{ color: string }` header/footer object of a branding overlay. -/
structure OverlayColorBox where
  color : String
deriving DecidableEq, Repr

/-- The `meta` section of a Kanon overlay as read by the converter, which
accepts both snake_case and camelCase spellings on the wire. -/
structure KanonMeta where
  name : Option String := none
  description : Option String := none
  issuer : Option String := none
  issuer_description : Option String := none
  issuerDescription : Option String := none
  issuer_url : Option String := none
  issuerUrl : Option String := none
  credential_help_text : Option String := none
  credentialHelpText : Option String := none
  credential_support_url : Option String := none
  credentialSupportUrl : Option String := none

/-- The `branding` section of a Kanon overlay as read by the converter:
every logical field may arrive in descriptive (snake_case) or compact
(camelCase) spelling, or be absent. -/
structure KanonBranding where
  logo : Option String := none
  background_color : Option String := none
  backgroundColor : Option String := none
  background_image : Option String := none
  backgroundImage : Option String := none
  background_image_slice : Option String := none
  backgroundImageSlice : Option String := none
  primary_background_color : Option String := none
  primaryBackgroundColor : Option String := none
  secondary_background_color : Option String := none
  secondaryBackgroundColor : Option String := none
  primary_attribute : Option String := none
  primaryAttribute : Option String := none
  secondary_attribute : Option String := none
  secondaryAttribute : Option String := none
  header : Option OverlayColorBox := none
  footer : Option OverlayColorBox := none

/-- The Kanon overlay object embedded in credential-definition metadata. -/
structure KanonOverlay where
  classification : Option String := none
  attributes : Option (List (String × String)) := none
  flaggedAttributes : Option (List String) := none
  meta : Option KanonMeta := none
  labels : Option (List (String × String)) := none
  branding : Option KanonBranding := none

/-- The capture base the converter builds. -/
structure CaptureBase where
  type : String
  digest : String
  classification : String
  attributes : List (String × String)
  flagged_attributes : List String

/-- A converted meta overlay (`spec/overlays/meta/1.0`). -/
structure MetaOverlay where
  type : String
  capture_base : String
  language : String
  name : String
  description : String
  issuer : String
  issuer_description : String
  issuer_url : String
  credential_help_text : String
  credential_support_url : String

/-- A converted label overlay (`spec/overlays/label/1.0`). -/
structure LabelOverlay where
  type : String
  capture_base : String
  language : String
  attribute_labels : List (String × String)

/-- A converted branding overlay (`aries/overlays/branding/0.1`), in the
descriptive snake_case form the converter emits; every field is a plain
string (or color box), never undefined. -/
structure BrandingOverlaySnake where
  type : String
  capture_base : String
  language : String
  logo : String
  background_color : String
  background_image : String
  background_image_slice : String
  primary_background_color : String
  secondary_background_color : String
  primary_attribute : String
  secondary_attribute : String
  header : OverlayColorBox
  footer : OverlayColorBox
deriving DecidableEq, Repr

/-- One element of a converted bundle's `overlays` array. -/
inductive BundleOverlay where
  | meta (o : MetaOverlay) : BundleOverlay
  | label (o : LabelOverlay) : BundleOverlay
  | branding (o : BrandingOverlaySnake) : BundleOverlay

/-- A converted OCA bundle. -/
structure OCABundle where
  captureBase : CaptureBase
  overlays : List BundleOverlay

/-! ## KanonOCABundleResolver: conversion -/

/-- `convertKanonOverlayToOCABundle` from Chat.tsx: build a capture base
and a meta / label / branding overlay (each only when the corresponding
section is present), preferring the descriptive snake_case spelling when
both spellings are present and defaulting every missing field
(`'' `for strings, `#FFFFFF` for the background color, `{color:'#000000'}`
for header and footer). -/
def convertKanonOverlayToOCABundle (overlay : KanonOverlay) (credDefId : String)
    (language : Option String) : OCABundle :=
  let lang := jsOr language "en"
  let captureBase : CaptureBase :=
    { type := "spec/capture_base/1.0"
      digest := credDefId
      classification := jsOr overlay.classification ""
      attributes := overlay.attributes.getD []
      flagged_attributes := overlay.flaggedAttributes.getD [] }
  let metaOverlays : List BundleOverlay :=
    match overlay.meta with
    | none => []
    | some m =>
      [BundleOverlay.meta
        { type := "spec/overlays/meta/1.0"
          capture_base := credDefId
          language := lang
          name := jsOr m.name ""
          description := jsOr m.description ""
          issuer := jsOr m.issuer ""
          issuer_description := jsOr2 m.issuer_description m.issuerDescription ""
          issuer_url := jsOr2 m.issuer_url m.issuerUrl ""
          credential_help_text := jsOr2 m.credential_help_text m.credentialHelpText ""
          credential_support_url := jsOr2 m.credential_support_url m.credentialSupportUrl "" }]
  let labelOverlays : List BundleOverlay :=
    match overlay.labels with
    | none => []
    | some ls =>
      [BundleOverlay.label
        { type := "spec/overlays/label/1.0"
          capture_base := credDefId
          language := lang
          attribute_labels := ls }]
  let brandingOverlays : List BundleOverlay :=
    match overlay.branding with
    | none => []
    | some b =>
      [BundleOverlay.branding
        { type := "aries/overlays/branding/0.1"
          capture_base := credDefId
          language := lang
          logo := jsOr b.logo ""
          background_color := jsOr2 b.background_color b.backgroundColor "#FFFFFF"
          background_image := jsOr2 b.background_image b.backgroundImage ""
          background_image_slice := jsOr2 b.background_image_slice b.backgroundImageSlice ""
          primary_background_color := jsOr2 b.primary_background_color b.primaryBackgroundColor ""
          secondary_background_color := jsOr2 b.secondary_background_color b.secondaryBackgroundColor ""
          primary_attribute := jsOr2 b.primary_attribute b.primaryAttribute ""
          secondary_attribute := jsOr2 b.secondary_attribute b.secondaryAttribute ""
          header := b.header.getD { color := "#000000" }
          footer := b.footer.getD { color := "#000000" } }]
  { captureBase := captureBase
    overlays := metaOverlays ++ labelOverlays ++ brandingOverlays }

/-- `rawBrandingOverlay.field_snake || rawBrandingOverlay.fieldCamel` on a
converter-produced overlay, whose objects carry only the snake_case key:
an empty string falls through to the absent camelCase key, i.e. to
`undefined`. -/
def strOrUndef (s : String) : Option String :=
  if s.isEmpty then none else some s

/-- The compact (camelCase) branding overlay `processBundle` hands to the
UI, extracted from a converter-produced bundle. -/
structure CompactBrandingOverlay where
  logo : String
  backgroundColor : Option String
  backgroundImage : Option String
  backgroundImageSlice : Option String
  primaryBackgroundColor : Option String
  secondaryBackgroundColor : Option String
  primaryAttribute : Option String
  secondaryAttribute : Option String
  issuedDateAttribute : Option String
  expiryDateAttribute : Option String
  header : OverlayColorBox
  footer : OverlayColorBox
deriving DecidableEq, Repr

/-- The compact meta overlay `processBundle` builds. -/
structure CompactMetaOverlay where
  name : String
  description : String
  issuer : String
  issuerDescription : String
  credentialHelpText : String
  credentialSupportUrl : String

/-- A requested presentation attribute (`params.attributes` entry). -/
structure PresentationAttr where
  name : Option String
  value : Option String

/-- A presentation attribute with its resolved label
(`{...attr, label}`; the label falls back to the attribute name and may
therefore be undefined). -/
structure LabeledAttr where
  name : Option String
  value : Option String
  label : Option String

/-- `OCABundleResolveAllParams` as read by the resolver. -/
structure ResolveAllParams where
  credentialDefinitionId : Option String
  language : Option String
  attributes : Option (List PresentationAttr)

/-- The `CredentialOverlay` result of `processBundle`. -/
structure CredentialOverlayResult where
  bundle : OCABundle
  presentationFields : Option (List LabeledAttr)
  metaOverlay : Option CompactMetaOverlay
  brandingOverlay : Option CompactBrandingOverlay

/-- `overlays.find` for the meta overlay of the requested language. -/
def findMetaOverlay (overlays : List BundleOverlay) (lang : String) : Option MetaOverlay :=
  overlays.findSome? fun o =>
    match o with
    | .meta m => if m.type == "spec/overlays/meta/1.0" && m.language == lang then some m else none
    | _ => none

/-- `overlays.find` for the label overlay of the requested language. -/
def findLabelOverlay (overlays : List BundleOverlay) (lang : String) : Option LabelOverlay :=
  overlays.findSome? fun o =>
    match o with
    | .label l => if l.type == "spec/overlays/label/1.0" && l.language == lang then some l else none
    | _ => none

/-- `overlays.find` for the branding overlay (no language filter in the
source). -/
def findBrandingOverlay (overlays : List BundleOverlay) : Option BrandingOverlaySnake :=
  overlays.findSome? fun o =>
    match o with
    | .branding b => if b.type == "aries/overlays/branding/0.1" then some b else none
    | _ => none

/-- `labelOverlay?.attribute_labels?.[attr.name || ''] || attr.name`. -/
def resolveLabel (labelOverlay : Option LabelOverlay) (attrName : Option String) :
    Option String :=
  let looked : Option String :=
    match labelOverlay with
    | none => none
    | some l => lookupField l.attribute_labels (jsOr attrName "")
  match looked with
  | some s => if s.isEmpty then attrName else some s
  | none => attrName

/-- `processBundle` from Chat.tsx: extract the language-matching meta and
label overlays and the branding overlay of a (converter-produced) bundle,
re-spell the branding overlay into compact camelCase form, and label the
requested presentation attributes. -/
def processBundle (bundle : OCABundle) (params : ResolveAllParams) :
    CredentialOverlayResult :=
  let lang := jsOr params.language "en"
  let metaOverlay := findMetaOverlay bundle.overlays lang
  let labelOverlay := findLabelOverlay bundle.overlays lang
  let rawBrandingOverlay := findBrandingOverlay bundle.overlays
  let brandingOverlay : Option CompactBrandingOverlay :=
    rawBrandingOverlay.map fun raw =>
      { logo := raw.logo
        backgroundColor := strOrUndef raw.background_color
        backgroundImage := strOrUndef raw.background_image
        backgroundImageSlice := strOrUndef raw.background_image_slice
        primaryBackgroundColor := strOrUndef raw.primary_background_color
        secondaryBackgroundColor := strOrUndef raw.secondary_background_color
        primaryAttribute := strOrUndef raw.primary_attribute
        secondaryAttribute := strOrUndef raw.secondary_attribute
        issuedDateAttribute := none
        expiryDateAttribute := none
        header := raw.header
        footer := raw.footer }
  let presentationFields : Option (List LabeledAttr) :=
    params.attributes.map fun attrs =>
      attrs.map fun attr =>
        { name := attr.name, value := attr.value
          label := resolveLabel labelOverlay attr.name }
  { bundle := bundle
    presentationFields := presentationFields
    metaOverlay := metaOverlay.map fun m =>
      { name := m.name
        description := m.description
        issuer := m.issuer
        issuerDescription := m.issuer_description
        credentialHelpText := m.credential_help_text
        credentialSupportUrl := m.credential_support_url }
    brandingOverlay := brandingOverlay }

/-! ## KanonOCABundleResolver: resolve and its cache -/

/-- `Map.get` on the `cachedOverlays` map (association list model). -/
def assocGet {α : Type} : List (String × α) → String → Option α
  | [], _ => none
  | (k, v) :: rest, key => if k = key then some v else assocGet rest key

/-- `Map.set`: replace the binding when present, otherwise append. -/
def assocSet {α : Type} : List (String × α) → String → α → List (String × α)
  | [], key, v => [(key, v)]
  | (k, w) :: rest, key, v =>
    if k = key then (k, v) :: rest else (k, w) :: assocSet rest key v

/-- `getCredentialDefinition` result: the optional embedded overlay from
`result.credentialDefinitionMetadata?.overlay` (truthiness of the overlay
object collapses to presence). -/
structure CredentialDefinitionResult where
  overlay : Option KanonOverlay

/-- `resolve` parameters (`{ identifiers, language }`). -/
structure ResolveParams where
  credentialDefinitionId : Option String
  language : Option String

/-- The resolver's external collaborators: the embedded default (local
bundle) resolver and the optional agent, whose
`modules.anoncreds.getCredentialDefinition` may reject (`Except.error`). -/
structure KanonResolverEnv where
  localResolve : ResolveParams → Option OCABundle
  agent : Option (String → Except Unit CredentialDefinitionResult)

/-- The resolver's mutable state: the `cachedOverlays` map keyed by
credential-definition id. -/
structure KanonResolverState where
  cachedOverlays : List (String × OCABundle)

/-- `fetchKanonOCA`: fetch the credential definition (failures and a
missing embedded overlay yield `undefined`) and convert its overlay. -/
def fetchKanonOCA (env : KanonResolverEnv) (credDefId : String)
    (language : Option String) : Option OCABundle :=
  match env.agent with
  | none => none
  | some getCredentialDefinition =>
    match getCredentialDefinition credDefId with
    | .error _ => none
    | .ok result =>
      match result.overlay with
      | none => none
      | some overlay => some (convertKanonOverlayToOCABundle overlay credDefId language)

/-- `KanonOCABundleResolver.resolve`: local bundle first, then the
in-memory cache (keyed by the credential-definition id only), then a
remote fetch whose converted result is written to the cache; every
failure path returns `undefined` and leaves the cache unchanged. -/
def KanonOCABundleResolver.resolve (env : KanonResolverEnv)
    (st : KanonResolverState) (params : ResolveParams) :
    Option OCABundle × KanonResolverState :=
  match env.localResolve params with
  | some localBundle => (some localBundle, st)
  | none =>
    match params.credentialDefinitionId with
    | some c =>
      if !c.isEmpty then
        match assocGet st.cachedOverlays c with
        | some cached => (some cached, st)
        | none =>
          match env.agent with
          | some _ =>
            match fetchKanonOCA env c params.language with
            | some kanonBundle =>
              (some kanonBundle,
               { cachedOverlays := assocSet st.cachedOverlays c kanonBundle })
            | none => (none, st)
          | none => (none, st)
      else (none, st)
    | none => (none, st)

/-! ## Concurrent resolve calls (cooperative event-loop model)

A `resolve` call suspends at its two `await`s: the embedded local resolve
and the remote fetch.  Code between suspension points runs atomically on
the single-threaded event loop.  A task therefore advances in two steps:
its first scheduling consumes the local-resolve result and runs the cache
check (possibly issuing the remote fetch), its second consumes the fetch
result and performs the cache write. -/

/-- How far a suspended `resolve` call has progressed. -/
inductive TaskPhase where
  | start : TaskPhase
  | afterFetch : TaskPhase
  | finished : TaskPhase
deriving DecidableEq, Repr

/-- A suspended `resolve` call and, once finished, its return value. -/
structure ResolveTask where
  phase : TaskPhase
  result : Option OCABundle

/-- Shared state plus instrumentation: how many remote fetches were
issued and how many cache writes happened. -/
structure ConcResolveState where
  cache : List (String × OCABundle)
  fetchCount : Nat
  writeCount : Nat

/-- Advance one suspended `resolve` call by one atomic segment. -/
def stepResolveTask (env : KanonResolverEnv) (params : ResolveParams)
    (s : ConcResolveState) (t : ResolveTask) : ResolveTask × ConcResolveState :=
  match t.phase with
  | .start =>
    match env.localResolve params with
    | some b => ({ phase := .finished, result := some b }, s)
    | none =>
      match params.credentialDefinitionId with
      | some c =>
        if !c.isEmpty then
          match assocGet s.cache c with
          | some cached => ({ phase := .finished, result := some cached }, s)
          | none =>
            match env.agent with
            | some _ =>
              ({ phase := .afterFetch, result := none },
               { s with fetchCount := s.fetchCount + 1 })
            | none => ({ phase := .finished, result := none }, s)
        else ({ phase := .finished, result := none }, s)
      | none => ({ phase := .finished, result := none }, s)
  | .afterFetch =>
    match params.credentialDefinitionId with
    | some c =>
      match fetchKanonOCA env c params.language with
      | some kanonBundle =>
        ({ phase := .finished, result := some kanonBundle },
         { s with cache := assocSet s.cache c kanonBundle
                  writeCount := s.writeCount + 1 })
      | none => ({ phase := .finished, result := none }, s)
    | none => ({ phase := .finished, result := none }, s)
  | .finished => (t, s)

/-- Which of the two concurrent callers the scheduler runs next. -/
inductive TaskId where
  | one : TaskId
  | two : TaskId
deriving DecidableEq, Repr

/-- Two concurrent `resolve` calls over the shared resolver state. -/
structure ConcSystem where
  shared : ConcResolveState
  task1 : ResolveTask
  task2 : ResolveTask

/-- Run one scheduler pick. -/
def schedStep (env : KanonResolverEnv) (params : ResolveParams)
    (sys : ConcSystem) (i : TaskId) : ConcSystem :=
  match i with
  | .one =>
    let (t, s) := stepResolveTask env params sys.shared sys.task1
    { sys with task1 := t, shared := s }
  | .two =>
    let (t, s) := stepResolveTask env params sys.shared sys.task2
    { sys with task2 := t, shared := s }

/-- Run a whole schedule. -/
def runSchedule (env : KanonResolverEnv) (params : ResolveParams)
    (sys : ConcSystem) : List TaskId → ConcSystem
  | [] => sys
  | i :: rest => runSchedule env params (schedStep env params sys i) rest

/-- Both callers start with an empty cache and no instrumentation. -/
def initConcSystem : ConcSystem :=
  { shared := { cache := [], fetchCount := 0, writeCount := 0 }
    task1 := { phase := .start, result := none }
    task2 := { phase := .start, result := none } }

/-! ## ActionMenuWorkflowHandler.handleActionButtonPress -/

/-- Escape one character as `JSON.stringify` does. -/
def escapeJsonChar (c : Char) : String :=
  if c = '"' then "\\\""
  else if c = '\\' then "\\\\"
  else if c = '\n' then "\\n"
  else if c = '\t' then "\\t"
  else if c = '\r' then "\\r"
  else if c.toNat < 32 then "\\u00" ++ (if c.toNat < 16 then "0" else "1") ++
    String.singleton (Nat.digitChar (c.toNat % 16))
  else String.singleton c

/-- `JSON.stringify` of a string. -/
def escapeJsonString (s : String) : String :=
  "\"" ++ String.join (s.data.map escapeJsonChar) ++ "\""

mutual

/-- `JSON.stringify` (object keys keep insertion order, as in
JavaScript). -/
def Json.stringify : Json → String
  | .null => "null"
  | .bool true => "true"
  | .bool false => "false"
  | .num n => toString n
  | .str s => escapeJsonString s
  | .arr xs => "[" ++ stringifyList xs ++ "]"
  | .obj fs => "\x7b" ++ stringifyFields fs ++ "\x7d"

/-- Comma-separated serialization of array elements. -/
def stringifyList : List Json → String
  | [] => ""
  | [x] => Json.stringify x
  | x :: y :: rest => Json.stringify x ++ "," ++ stringifyList (y :: rest)

/-- Comma-separated serialization of object fields. -/
def stringifyFields : List (String × Json) → String
  | [] => ""
  | [(k, v)] => escapeJsonString k ++ ":" ++ Json.stringify v
  | (k, v) :: y :: rest =>
    escapeJsonString k ++ ":" ++ Json.stringify v ++ "," ++ stringifyFields (y :: rest)

end

/-- The late-bound collaborators `handleActionButtonPress` reads (the
agent object is truthy whenever set; the connection id is a string and
follows string truthiness). -/
structure ActionMenuHandlerState where
  agent : Option Unit
  connectionId : Option String

/-- The observable effects of `handleActionButtonPress`. -/
inductive HandlerEffect where
  | warn (msg : String) : HandlerEffect
  | sendMessage (connectionId : String) (body : String) : HandlerEffect
  | connectToInvitation (link : String) : HandlerEffect
deriving DecidableEq, Repr

/-- The `{workflowID, actionID: actionId, data: {}}` object the handler
serializes. -/
def actionJSON (actionId workflowID : String) : Json :=
  Json.obj [("workflowID", Json.str workflowID),
            ("actionID", Json.str actionId),
            ("data", Json.obj [])]

/-- `handleActionButtonPress`: warn and do nothing unless both the agent
and a truthy connection id are set; then either connect to a (truthy)
invitation link or send the serialized action object as one plain
message. -/
def handleActionButtonPress (st : ActionMenuHandlerState)
    (actionId workflowID : String) (invitationLink : Option String) :
    List HandlerEffect :=
  if st.agent.isNone || !(strTruthy st.connectionId) then
    [HandlerEffect.warn "Agent or connectionId not set for ActionMenuHandler"]
  else if strTruthy invitationLink then
    [HandlerEffect.connectToInvitation (invitationLink.getD "")]
  else
    [HandlerEffect.sendMessage (st.connectionId.getD "")
      (Json.stringify (actionJSON actionId workflowID))]

/-! ## Concrete inputs used by witnesses and counterexamples -/

/-- A menu payload `{"displayData": [], "workflowID": "w1"}`. -/
def menuPayloadJson : Json :=
  Json.obj [("displayData", Json.arr []), ("workflowID", Json.str "w1")]

/-- A parse function agreeing with `JSON.parse` on the inputs used below:
the menu payload parses to `menuPayloadJson`, the quoted string
`"received your message"` parses to the corresponding JSON string, the
two-character object literal parses to an empty object, everything else
throws. -/
def fixtureParse (s : String) : Option Json :=
  if s = "menu-payload" then some menuPayloadJson
  else if s = "\"received your message\"" then some (Json.str "received your message")
  else if s = "\x7b\x7d" then some (Json.obj [])
  else none

/-- A peer-sent record carrying a menu payload. -/
def menuRecord : BasicMessageRecord :=
  { id := "r1", content := "menu-payload", role := BasicMessageRole.receiver }

/-- A peer-sent record whose content is the JSON string
`"received your message"` (a JSON-parsable payload). -/
def peerEchoRecord : BasicMessageRecord :=
  { id := "r2", content := "\"received your message\"", role := BasicMessageRole.receiver }

/-- The self-sent `:menu` sentinel. -/
def selfMenuRecord : BasicMessageRecord :=
  { id := "r3", content := ":menu", role := BasicMessageRole.sender }

/-- A self-sent JSON payload (`{}`). -/
def selfJsonRecord : BasicMessageRecord :=
  { id := "r4", content := "\x7b\x7d", role := BasicMessageRole.sender }

/-- A peer-sent `:menu` message. -/
def peerMenuRecord : BasicMessageRecord :=
  { id := "r5", content := ":menu", role := BasicMessageRole.receiver }

/-- A peer-sent plain-text record that is not JSON. -/
def plainRecord : BasicMessageRecord :=
  { id := "r6", content := "hello", role := BasicMessageRole.receiver }

/-- C4 counterexample input: a student identifier together with a lone
`first` attribute (no `last`, no fullname alias), empty credential
definition id. -/
def lonelyFirstCredential : CredentialExchangeRecord :=
  { credentialDefinitionId := ""
    credentialAttributes := [{ name := "studentid", value := "123" },
                             { name := "first", value := "Ada" }] }

/-- C4 witness input: student identifier plus a fullname alias. -/
def fullnameCredential : CredentialExchangeRecord :=
  { credentialDefinitionId := ""
    credentialAttributes := [{ name := "studentid", value := "123" },
                             { name := "fullname", value := "Ada Lovelace" }] }

/-- C5 counterexample input: a branding section whose descriptive
`background_color` is present with the empty string as its value. -/
def emptyColorOverlay : KanonOverlay :=
  { branding := some { background_color := some "" } }

/-- C5 witness input: a fully populated descriptive (snake_case) branding
section. -/
def descriptiveBranding : KanonBranding :=
  { logo := some "logo.png"
    background_color := some "#112233"
    background_image := some "bg.png"
    background_image_slice := some "slice.png"
    primary_background_color := some "#445566"
    secondary_background_color := some "#778899"
    primary_attribute := some "name"
    secondary_attribute := some "id"
    header := some { color := "#AA0000" }
    footer := some { color := "#00BB00" } }

/-- The C5 witness overlay wrapping `descriptiveBranding`. -/
def descriptiveOverlay : KanonOverlay := { branding := some descriptiveBranding }

/-- C6 witness input: a branding section with every field missing. -/
def bareBrandingOverlay : KanonOverlay := { branding := some {} }

/-- Resolve-all parameters used when processing fixture bundles. -/
def fixtureResolveAllParams : ResolveAllParams :=
  { credentialDefinitionId := some "cd:1", language := none, attributes := none }

/-- The overlay embedded in the fixture credential definition. -/
def fixtureKanonOverlay : KanonOverlay :=
  { meta := some { name := some "Card" }, branding := some {} }

/-- Resolver environment whose local resolver always misses and whose
agent returns the fixture overlay for every credential definition. -/
def fixtureResolverEnv : KanonResolverEnv :=
  { localResolve := fun _ => none
    agent := some fun _ => Except.ok { overlay := some fixtureKanonOverlay } }

/-- Resolve parameters for the fixture credential definition. -/
def fixtureResolveParams : ResolveParams :=
  { credentialDefinitionId := some "cd:1", language := some "en" }

/-- The bundle the fixture fetch produces. -/
def fixtureBundle : OCABundle :=
  convertKanonOverlayToOCABundle fixtureKanonOverlay "cd:1" (some "en")

/-- A misconfigured handler: agent set, connection id set to the empty
string. -/
def emptyConnHandlerState : ActionMenuHandlerState :=
  { agent := some (), connectionId := some "" }

/-- A fully configured handler. -/
def configuredHandlerState : ActionMenuHandlerState :=
  { agent := some (), connectionId := some "conn1" }

example : Json.truthy (Json.obj []) = true := by decide
example : containsSubstr "abcde" "cd" = true := by decide
example : containsSubstr "abcde" "ce" = false := by decide
example : asciiToLower "Received YOUR Message" = "received your message" := by decide
example : Json.stringify (actionJSON "a1" "w1") =
    "\x7b\"workflowID\":\"w1\",\"actionID\":\"a1\",\"data\":\x7b\x7d\x7d" := by decide

/-! ## Helper lemmas -/

/-- A value with an own property is an object, hence truthy. -/
theorem Json.truthy_of_getField {j : Json} {name : String} {v : Json}
    (h : j.getField name = some v) : j.truthy = true := by
  cases j <;> simp [Json.getField, Json.truthy] at h ⊢

/-- `isActionMenuMessage` accepts exactly the contents `parseActionMenu`
accepts: both check that the parsed value is truthy with an array-valued
`displayData` property. -/
theorem isActionMenuMessage_eq_parse_isSome (parse : String → Option Json)
    (record : BasicMessageRecord) :
    BasicMessageWorkflowHandler.isActionMenuMessage parse record =
      (ActionMenuWorkflowHandler.parseActionMenu parse record.content).isSome := by
  unfold BasicMessageWorkflowHandler.isActionMenuMessage
    ActionMenuWorkflowHandler.parseActionMenu
  cases hp : parse record.content with
  | none => rfl
  | some parsed =>
    cases htr : parsed.truthy with
    | false => simp [htr]
    | true =>
      cases hf : parsed.getField "displayData" with
      | none => simp [htr, hf]
      | some v => cases v <;> simp [htr, hf, Json.isArray]

/-! ## Claim theorems: message classification -/

/-- C2: a BasicMessageRecord whose content parses as a JSON object with
an array-valued `displayData` field is accepted by
`ActionMenuWorkflowHandler.canHandle` and rejected by
`BasicMessageWorkflowHandler.canHandle`; the two predicates are never
both true for the same record, so first-match classification with the
menu handler registered before the fallback handler returns the menu
handler for such a payload. -/
theorem C2_menuClassification (parse : String → Option Json)
    (record : BasicMessageRecord) (j : Json) (xs : List Json)
    (hparse : parse record.content = some j)
    (hfield : j.getField "displayData" = some (Json.arr xs)) :
    ActionMenuWorkflowHandler.canHandle parse record = true ∧
    BasicMessageWorkflowHandler.canHandle parse record = false ∧
    (∀ r : BasicMessageRecord,
      ¬(ActionMenuWorkflowHandler.canHandle parse r = true ∧
        BasicMessageWorkflowHandler.canHandle parse r = true)) ∧
    (∀ others : List (BasicMessageRecord → Bool),
      classifyFirstMatch
        (ActionMenuWorkflowHandler.canHandle parse ::
          BasicMessageWorkflowHandler.canHandle parse :: others) record = some 0) := by
  have htr : j.truthy = true := Json.truthy_of_getField hfield
  have hAM : ActionMenuWorkflowHandler.canHandle parse record = true := by
    unfold ActionMenuWorkflowHandler.canHandle ActionMenuWorkflowHandler.parseActionMenu
    rw [hparse]
    simp [htr, hfield]
  have hexcl : ∀ r : BasicMessageRecord,
      ¬(ActionMenuWorkflowHandler.canHandle parse r = true ∧
        BasicMessageWorkflowHandler.canHandle parse r = true) := by
    intro r ⟨h1, h2⟩
    unfold BasicMessageWorkflowHandler.canHandle at h2
    rw [isActionMenuMessage_eq_parse_isSome] at h2
    unfold ActionMenuWorkflowHandler.canHandle at h1
    rw [h1] at h2
    exact Bool.false_ne_true h2
  have hBM : BasicMessageWorkflowHandler.canHandle parse record = false := by
    cases hb : BasicMessageWorkflowHandler.canHandle parse record with
    | false => rfl
    | true => exact absurd ⟨hAM, hb⟩ (hexcl record)
  refine ⟨hAM, hBM, hexcl, ?_⟩
  intro others
  unfold classifyFirstMatch
  rw [hAM]
  rfl

/-- C2 witness: the fixture menu payload at a concrete record. -/
theorem C2_menuClassification_witness :
    ActionMenuWorkflowHandler.canHandle fixtureParse menuRecord = true ∧
    BasicMessageWorkflowHandler.canHandle fixtureParse menuRecord = false :=
  ⟨(C2_menuClassification fixtureParse menuRecord menuPayloadJson [] rfl rfl).1,
   (C2_menuClassification fixtureParse menuRecord menuPayloadJson [] rfl rfl).2.1⟩

/-- C8: a content that fails to parse, or parses to a value without an
array-valued `displayData` field, is rejected by the classification
predicates of both handlers (the embedding is total, so no exception can
escape: parse failure is the `none` case). -/
theorem C8_malformedRejected (parse : String → Option Json)
    (record : BasicMessageRecord)
    (h : parse record.content = none ∨
      ∃ j, parse record.content = some j ∧
        ∀ xs, j.getField "displayData" ≠ some (Json.arr xs)) :
    ActionMenuWorkflowHandler.canHandle parse record = false ∧
    BasicMessageWorkflowHandler.isActionMenuMessage parse record = false := by
  have hparse : ActionMenuWorkflowHandler.parseActionMenu parse record.content = none := by
    unfold ActionMenuWorkflowHandler.parseActionMenu
    rcases h with h | ⟨j, hj, hno⟩
    · rw [h]
    · rw [hj]
      cases htr : j.truthy with
      | false => simp [htr]
      | true =>
        cases hf : j.getField "displayData" with
        | none => simp [htr, hf]
        | some v =>
          cases v with
          | arr xs => exact absurd hf (hno xs)
          | null => simp [htr, hf]
          | bool b => simp [htr, hf]
          | num n => simp [htr, hf]
          | str s => simp [htr, hf]
          | obj fs => simp [htr, hf]
  constructor
  · unfold ActionMenuWorkflowHandler.canHandle
    rw [hparse]
    rfl
  · rw [isActionMenuMessage_eq_parse_isSome, hparse]
    rfl

/-- C8 witness: non-JSON text is rejected. -/
theorem C8_malformedRejected_witness :
    ActionMenuWorkflowHandler.canHandle fixtureParse plainRecord = false ∧
    BasicMessageWorkflowHandler.isActionMenuMessage fixtureParse plainRecord = false :=
  C8_malformedRejected fixtureParse plainRecord (Or.inl rfl)

/-- C10: `ActionMenuWorkflowHandler.shouldDisplay` is true exactly when
`getRole` yields `them`, i.e. exactly when the record is not self-sent. -/
theorem C10_actionMenuShouldDisplay (record : BasicMessageRecord) :
    (ActionMenuWorkflowHandler.shouldDisplay record = true ↔
      ActionMenuWorkflowHandler.getRole record = Role.them) ∧
    (ActionMenuWorkflowHandler.shouldDisplay record = true ↔
      record.role ≠ BasicMessageRole.sender) := by
  unfold ActionMenuWorkflowHandler.shouldDisplay ActionMenuWorkflowHandler.getRole
  cases hr : record.role <;> simp [hr]

/-- C3 counterexample: the quoted JSON string
`"received your message"` is a peer-sent, JSON-parsable content for which
`BasicMessageWorkflowHandler.shouldDisplay` returns false (the
case-insensitive `received your message` filter fires), contradicting
the claim that peer-sent JSON-parsable contents are always displayed. -/
theorem C3_peerEcho_counterexample :
    BasicMessageWorkflowHandler.getRole peerEchoRecord = Role.them ∧
    BasicMessageWorkflowHandler.isJsonMessage fixtureParse peerEchoRecord.content = true ∧
    BasicMessageWorkflowHandler.shouldDisplay fixtureParse peerEchoRecord = false := by
  refine ⟨rfl, rfl, ?_⟩
  decide

/-- C3 (amended): self-sent `:menu` and self-sent JSON-parsable contents
are suppressed; peer-sent records with those contents are displayed
provided the content does not case-insensitively contain
`received your message`. -/
theorem C3_shouldDisplay_amended (parse : String → Option Json)
    (record : BasicMessageRecord) :
    (record.role = BasicMessageRole.sender → record.content = ":menu" →
      BasicMessageWorkflowHandler.shouldDisplay parse record = false) ∧
    (record.role = BasicMessageRole.sender → (parse record.content).isSome = true →
      BasicMessageWorkflowHandler.shouldDisplay parse record = false) ∧
    (record.role = BasicMessageRole.receiver →
      containsSubstr (asciiToLower record.content) "received your message" = false →
      (record.content = ":menu" ∨ (parse record.content).isSome = true) →
      BasicMessageWorkflowHandler.shouldDisplay parse record = true) := by
  unfold BasicMessageWorkflowHandler.shouldDisplay BasicMessageWorkflowHandler.getRole
    BasicMessageWorkflowHandler.isJsonMessage
  refine ⟨?_, ?_, ?_⟩
  · intro hs hc
    simp [hs, hc]
  · intro hs hj
    simp only [hs]
    simp [hj]
  · intro hr hc _hcontent
    simp [hr, hc]

/-- C3 witness for the amended statement: suppression of the self-sent
sentinel and a self-sent JSON payload, display of the peer-sent
sentinel. -/
theorem C3_shouldDisplay_amended_witness :
    BasicMessageWorkflowHandler.shouldDisplay fixtureParse selfMenuRecord = false ∧
    BasicMessageWorkflowHandler.shouldDisplay fixtureParse selfJsonRecord = false ∧
    BasicMessageWorkflowHandler.shouldDisplay fixtureParse peerMenuRecord = true :=
  ⟨(C3_shouldDisplay_amended fixtureParse selfMenuRecord).1 rfl rfl,
   (C3_shouldDisplay_amended fixtureParse selfJsonRecord).2.1 rfl rfl,
   (C3_shouldDisplay_amended fixtureParse peerMenuRecord).2.2 rfl (by decide) (Or.inl rfl)⟩

/-! ## Claim theorems: credential archetype classification -/

/-- C4 counterexample: a credential with a student identifier and only a
`first` attribute (no `last`, no fullname alias, empty credential
definition id) is classified `STUDENT_ID` by the code, although the
claim's pair-based name evidence rejects it. -/
theorem C4_lonelyFirst_counterexample :
    detectCredentialType lonelyFirstCredential = CredentialDisplayType.STUDENT_ID ∧
    transcriptCondition lonelyFirstCredential = false ∧
    claimedIdentityCardCondition lonelyFirstCredential = false := by
  decide

/-- C4 (amended): outside the Transcript branch, the code classifies
`STUDENT_ID` exactly when a student identifier is present together with
name evidence — where a single attribute named `first` OR one named
`last` (not necessarily a pair) already counts, besides the
fullname/studentfullname aliases — or the credential definition id
matches the issuer allow-list. -/
theorem C4_identityCard_amended (credential : CredentialExchangeRecord)
    (h : transcriptCondition credential = false) :
    detectCredentialType credential = CredentialDisplayType.STUDENT_ID ↔
      ((hasStudentIdCondition credential && hasStudentNameCondition credential) ||
        credDefIdAllowList credential) = true := by
  unfold detectCredentialType
  rw [h]
  cases hA : hasStudentIdCondition credential && hasStudentNameCondition credential <;>
    cases hC : credDefIdAllowList credential <;> simp

/-- C4 witness: student identifier plus fullname alias yields
`STUDENT_ID`. -/
theorem C4_identityCard_amended_witness :
    detectCredentialType fullnameCredential = CredentialDisplayType.STUDENT_ID :=
  (C4_identityCard_amended fullnameCredential (by decide)).mpr (by decide)

/-! ## Claim theorems: branding overlay conversion -/

/-- Converting an overlay with a branding section produces exactly one
branding overlay, whose fields are the source's `||`-chains over the two
spellings with their defaults. -/
theorem findBrandingOverlay_convert (ov : KanonOverlay) (b : KanonBranding)
    (credDefId : String) (language : Option String)
    (hb : ov.branding = some b) :
    findBrandingOverlay (convertKanonOverlayToOCABundle ov credDefId language).overlays =
      some { type := "aries/overlays/branding/0.1"
             capture_base := credDefId
             language := jsOr language "en"
             logo := jsOr b.logo ""
             background_color := jsOr2 b.background_color b.backgroundColor "#FFFFFF"
             background_image := jsOr2 b.background_image b.backgroundImage ""
             background_image_slice := jsOr2 b.background_image_slice b.backgroundImageSlice ""
             primary_background_color :=
               jsOr2 b.primary_background_color b.primaryBackgroundColor ""
             secondary_background_color :=
               jsOr2 b.secondary_background_color b.secondaryBackgroundColor ""
             primary_attribute := jsOr2 b.primary_attribute b.primaryAttribute ""
             secondary_attribute := jsOr2 b.secondary_attribute b.secondaryAttribute ""
             header := b.header.getD { color := "#000000" }
             footer := b.footer.getD { color := "#000000" } } := by
  unfold convertKanonOverlayToOCABundle findBrandingOverlay
  rw [hb]
  cases ov.meta <;> cases ov.labels <;> simp [List.findSome?]

/-- `processBundle` re-spells the branding overlay it finds into the
compact camelCase record (an empty snake_case field falls through to the
absent camelCase key, i.e. to `undefined`). -/
theorem processBundle_brandingOverlay (bundle : OCABundle) (params : ResolveAllParams)
    (bo : BrandingOverlaySnake)
    (hfind : findBrandingOverlay bundle.overlays = some bo) :
    (processBundle bundle params).brandingOverlay =
      some { logo := bo.logo
             backgroundColor := strOrUndef bo.background_color
             backgroundImage := strOrUndef bo.background_image
             backgroundImageSlice := strOrUndef bo.background_image_slice
             primaryBackgroundColor := strOrUndef bo.primary_background_color
             secondaryBackgroundColor := strOrUndef bo.secondary_background_color
             primaryAttribute := strOrUndef bo.primary_attribute
             secondaryAttribute := strOrUndef bo.secondary_attribute
             issuedDateAttribute := none
             expiryDateAttribute := none
             header := bo.header
             footer := bo.footer } := by
  unfold processBundle
  rw [hfind]
  rfl

/-- C5 counterexample: a descriptive-form branding overlay whose
`background_color` is given as the empty string round-trips to the
compact value `#FFFFFF`, so the given value is not preserved. -/
theorem C5_roundTrip_counterexample :
    ((processBundle (convertKanonOverlayToOCABundle emptyColorOverlay "cd:1" none)
        fixtureResolveAllParams).brandingOverlay.map CompactBrandingOverlay.backgroundColor) =
      some (some "#FFFFFF") ∧
    ((processBundle (convertKanonOverlayToOCABundle emptyColorOverlay "cd:1" none)
        fixtureResolveAllParams).brandingOverlay.map CompactBrandingOverlay.backgroundColor) ≠
      some (some "") := by
  constructor
  · rfl
  · decide

/-- C5 (amended): for a branding overlay given in the descriptive
(snake_case) wire form with non-empty field values, converting with
`convertKanonOverlayToOCABundle` and extracting the compact form with
`processBundle` preserves every field's value, each descriptive field
landing in exactly one compact counterpart; a `background_color` given
as the empty string is not preserved (it comes back as `#FFFFFF`). -/
theorem C5_roundTrip_amended (ov : KanonOverlay) (b : KanonBranding)
    (credDefId : String) (language : Option String) (params : ResolveAllParams)
    (hb : ov.branding = some b)
    (v0 v1 v2 v3 v4 v5 v6 v7 : String) (hd ft : OverlayColorBox)
    (h0 : b.logo = some v0) (h0e : v0.isEmpty = false)
    (h1 : b.background_color = some v1) (h1e : v1.isEmpty = false)
    (h2 : b.background_image = some v2) (h2e : v2.isEmpty = false)
    (h3 : b.background_image_slice = some v3) (h3e : v3.isEmpty = false)
    (h4 : b.primary_background_color = some v4) (h4e : v4.isEmpty = false)
    (h5 : b.secondary_background_color = some v5) (h5e : v5.isEmpty = false)
    (h6 : b.primary_attribute = some v6) (h6e : v6.isEmpty = false)
    (h7 : b.secondary_attribute = some v7) (h7e : v7.isEmpty = false)
    (hh : b.header = some hd) (hf : b.footer = some ft) :
    (processBundle (convertKanonOverlayToOCABundle ov credDefId language) params).brandingOverlay =
      some { logo := v0
             backgroundColor := some v1
             backgroundImage := some v2
             backgroundImageSlice := some v3
             primaryBackgroundColor := some v4
             secondaryBackgroundColor := some v5
             primaryAttribute := some v6
             secondaryAttribute := some v7
             issuedDateAttribute := none
             expiryDateAttribute := none
             header := hd
             footer := ft } := by
  rw [processBundle_brandingOverlay _ params _
    (findBrandingOverlay_convert ov b credDefId language hb)]
  simp [jsOr2, jsOr, strOrUndef, h0, h1, h2, h3, h4, h5, h6, h7,
    h0e, h1e, h2e, h3e, h4e, h5e, h6e, h7e, hh, hf]

/-- C5 witness: a fully populated descriptive branding section
round-trips to the compact form with every value preserved. -/
theorem C5_roundTrip_amended_witness :
    (processBundle (convertKanonOverlayToOCABundle descriptiveOverlay "cd:1" none)
        fixtureResolveAllParams).brandingOverlay =
      some { logo := "logo.png"
             backgroundColor := some "#112233"
             backgroundImage := some "bg.png"
             backgroundImageSlice := some "slice.png"
             primaryBackgroundColor := some "#445566"
             secondaryBackgroundColor := some "#778899"
             primaryAttribute := some "name"
             secondaryAttribute := some "id"
             issuedDateAttribute := none
             expiryDateAttribute := none
             header := { color := "#AA0000" }
             footer := { color := "#00BB00" } } :=
  C5_roundTrip_amended descriptiveOverlay descriptiveBranding "cd:1" none
    fixtureResolveAllParams rfl
    "logo.png" "#112233" "bg.png" "slice.png" "#445566" "#778899" "name" "id"
    { color := "#AA0000" } { color := "#00BB00" }
    rfl rfl rfl rfl rfl rfl rfl rfl rfl rfl rfl rfl rfl rfl rfl rfl rfl rfl

/-- C6: in a converted branding overlay no field is undefined (the
converted record is total by construction), and each missing input field
takes its documented default: `#FFFFFF` for the background color (also
visible as the compact `backgroundColor`), `#000000` for header and
footer, and the empty string for every other field. -/
theorem C6_brandingDefaults (ov : KanonOverlay) (b : KanonBranding)
    (credDefId : String) (language : Option String) (params : ResolveAllParams)
    (hb : ov.branding = some b) :
    (b.background_color = none → b.backgroundColor = none →
      (findBrandingOverlay (convertKanonOverlayToOCABundle ov credDefId language).overlays).map
          BrandingOverlaySnake.background_color = some "#FFFFFF" ∧
      ((processBundle (convertKanonOverlayToOCABundle ov credDefId language) params).brandingOverlay.map
          CompactBrandingOverlay.backgroundColor) = some (some "#FFFFFF")) ∧
    (b.header = none →
      (findBrandingOverlay (convertKanonOverlayToOCABundle ov credDefId language).overlays).map
          BrandingOverlaySnake.header = some { color := "#000000" }) ∧
    (b.footer = none →
      (findBrandingOverlay (convertKanonOverlayToOCABundle ov credDefId language).overlays).map
          BrandingOverlaySnake.footer = some { color := "#000000" }) ∧
    (b.logo = none →
      (findBrandingOverlay (convertKanonOverlayToOCABundle ov credDefId language).overlays).map
          BrandingOverlaySnake.logo = some "") ∧
    (b.background_image = none → b.backgroundImage = none →
      (findBrandingOverlay (convertKanonOverlayToOCABundle ov credDefId language).overlays).map
          BrandingOverlaySnake.background_image = some "") ∧
    (b.background_image_slice = none → b.backgroundImageSlice = none →
      (findBrandingOverlay (convertKanonOverlayToOCABundle ov credDefId language).overlays).map
          BrandingOverlaySnake.background_image_slice = some "") ∧
    (b.primary_background_color = none → b.primaryBackgroundColor = none →
      (findBrandingOverlay (convertKanonOverlayToOCABundle ov credDefId language).overlays).map
          BrandingOverlaySnake.primary_background_color = some "") ∧
    (b.secondary_background_color = none → b.secondaryBackgroundColor = none →
      (findBrandingOverlay (convertKanonOverlayToOCABundle ov credDefId language).overlays).map
          BrandingOverlaySnake.secondary_background_color = some "") ∧
    (b.primary_attribute = none → b.primaryAttribute = none →
      (findBrandingOverlay (convertKanonOverlayToOCABundle ov credDefId language).overlays).map
          BrandingOverlaySnake.primary_attribute = some "") ∧
    (b.secondary_attribute = none → b.secondaryAttribute = none →
      (findBrandingOverlay (convertKanonOverlayToOCABundle ov credDefId language).overlays).map
          BrandingOverlaySnake.secondary_attribute = some "") := by
  have hfind := findBrandingOverlay_convert ov b credDefId language hb
  have hproc := processBundle_brandingOverlay
    (convertKanonOverlayToOCABundle ov credDefId language) params _ hfind
  refine ⟨?_, ?_, ?_, ?_, ?_, ?_, ?_, ?_, ?_, ?_⟩
  · intro hx hy
    constructor
    · rw [hfind]
      simp [jsOr2, jsOr, hx, hy]
    · rw [hproc]
      simp [jsOr2, jsOr, strOrUndef, hx, hy]
      decide
  · intro hx
    rw [hfind]
    simp [hx]
  · intro hx
    rw [hfind]
    simp [hx]
  · intro hx
    rw [hfind]
    simp [jsOr, hx]
  · intro hx hy
    rw [hfind]
    simp [jsOr2, jsOr, hx, hy]
  · intro hx hy
    rw [hfind]
    simp [jsOr2, jsOr, hx, hy]
  · intro hx hy
    rw [hfind]
    simp [jsOr2, jsOr, hx, hy]
  · intro hx hy
    rw [hfind]
    simp [jsOr2, jsOr, hx, hy]
  · intro hx hy
    rw [hfind]
    simp [jsOr2, jsOr, hx, hy]
  · intro hx hy
    rw [hfind]
    simp [jsOr2, jsOr, hx, hy]

/-- C6 witness: with every branding field missing, the background color
is `#FFFFFF` (also in the compact form) and the header defaults. -/
theorem C6_brandingDefaults_witness :
    ((processBundle (convertKanonOverlayToOCABundle bareBrandingOverlay "cd:1" none)
        fixtureResolveAllParams).brandingOverlay.map CompactBrandingOverlay.backgroundColor) =
      some (some "#FFFFFF") ∧
    (findBrandingOverlay (convertKanonOverlayToOCABundle bareBrandingOverlay "cd:1" none).overlays).map
        BrandingOverlaySnake.header = some { color := "#000000" } :=
  ⟨((C6_brandingDefaults bareBrandingOverlay {} "cd:1" none fixtureResolveAllParams rfl).1
      rfl rfl).2,
   (C6_brandingDefaults bareBrandingOverlay {} "cd:1" none fixtureResolveAllParams rfl).2.1 rfl⟩

/-- `assocGet` after `assocSet` at the same key returns the new value. -/
theorem assocGet_assocSet_self {α : Type} (m : List (String × α)) (k : String) (v : α) :
    assocGet (assocSet m k v) k = some v := by
  induction m with
  | nil => simp [assocGet, assocSet]
  | cons hd tl ih =>
    obtain ⟨k', v'⟩ := hd
    by_cases hk : k' = k
    · simp [assocGet, assocSet, hk]
    · simp [assocGet, assocSet, hk, ih]

/-! ## Claim theorems: overlay resolution order and caching -/

/-- C1: `resolve` consults the local bundle first; otherwise it returns
the cached bundle for the credential-definition id (for any requested
language, so a bundle cached under one language serves every later
language); otherwise it fetches, converts, writes the cache under the
credential-definition id and returns the converted bundle; and when the
fetch fails or no overlay is embedded it returns none, leaving the cache
unchanged. -/
theorem C1_resolveOrder (env : KanonResolverEnv) (st : KanonResolverState)
    (params : ResolveParams) :
    (∀ b, env.localResolve params = some b →
      KanonOCABundleResolver.resolve env st params = (some b, st)) ∧
    (∀ c cached, env.localResolve params = none →
      params.credentialDefinitionId = some c → c.isEmpty = false →
      assocGet st.cachedOverlays c = some cached →
      KanonOCABundleResolver.resolve env st params = (some cached, st)) ∧
    (∀ c kb, env.localResolve params = none →
      params.credentialDefinitionId = some c → c.isEmpty = false →
      assocGet st.cachedOverlays c = none →
      fetchKanonOCA env c params.language = some kb →
      KanonOCABundleResolver.resolve env st params =
        (some kb, { cachedOverlays := assocSet st.cachedOverlays c kb })) ∧
    (∀ c, env.localResolve params = none →
      params.credentialDefinitionId = some c → c.isEmpty = false →
      assocGet st.cachedOverlays c = none →
      fetchKanonOCA env c params.language = none →
      KanonOCABundleResolver.resolve env st params = (none, st)) ∧
    (∀ c kb lang2, env.localResolve params = none →
      params.credentialDefinitionId = some c → c.isEmpty = false →
      assocGet st.cachedOverlays c = none →
      fetchKanonOCA env c params.language = some kb →
      env.localResolve { credentialDefinitionId := some c, language := lang2 } = none →
      KanonOCABundleResolver.resolve env
          (KanonOCABundleResolver.resolve env st params).2
          { credentialDefinitionId := some c, language := lang2 } =
        (some kb, (KanonOCABundleResolver.resolve env st params).2)) := by
  refine ⟨?_, ?_, ?_, ?_, ?_⟩
  · intro b hlocal
    simp [KanonOCABundleResolver.resolve, hlocal]
  · intro c cached hlocal hc hce hcache
    simp [KanonOCABundleResolver.resolve, hlocal, hc, hce, hcache]
  · intro c kb hlocal hc hce hcache hfetch
    have hagent : ∃ f, env.agent = some f := by
      cases ha : env.agent with
      | none => rw [fetchKanonOCA, ha] at hfetch; exact absurd hfetch (by simp)
      | some f => exact ⟨f, rfl⟩
    obtain ⟨f, hf⟩ := hagent
    simp [KanonOCABundleResolver.resolve, hlocal, hc, hce, hcache, hf, hfetch]
  · intro c hlocal hc hce hcache hfetch
    cases hf : env.agent with
    | none => simp [KanonOCABundleResolver.resolve, hlocal, hc, hce, hcache, hf]
    | some f => simp [KanonOCABundleResolver.resolve, hlocal, hc, hce, hcache, hf, hfetch]
  · intro c kb lang2 hlocal hc hce hcache hfetch hlocal2
    have hagent : ∃ f, env.agent = some f := by
      cases ha : env.agent with
      | none => rw [fetchKanonOCA, ha] at hfetch; exact absurd hfetch (by simp)
      | some f => exact ⟨f, rfl⟩
    obtain ⟨f, hf⟩ := hagent
    have hres : KanonOCABundleResolver.resolve env st params =
        (some kb, { cachedOverlays := assocSet st.cachedOverlays c kb }) := by
      simp [KanonOCABundleResolver.resolve, hlocal, hc, hce, hcache, hf, hfetch]
    rw [hres]
    simp [KanonOCABundleResolver.resolve, hlocal2, hce, assocGet_assocSet_self]

/-- C1 witness: with an empty cache, a local miss and a successful fetch,
`resolve` returns the converted fixture bundle and caches it under the
credential-definition id. -/
theorem C1_resolveOrder_witness :
    KanonOCABundleResolver.resolve fixtureResolverEnv { cachedOverlays := [] }
        fixtureResolveParams =
      (some fixtureBundle, { cachedOverlays := [("cd:1", fixtureBundle)] }) :=
  (C1_resolveOrder fixtureResolverEnv { cachedOverlays := [] }
    fixtureResolveParams).2.2.1 "cd:1" fixtureBundle rfl rfl rfl rfl rfl

/-! ## Claim theorems: concurrent resolve calls (C7) -/

/-- C7: the code violates the at-most-one-fetch guarantee.  When two
`resolve` calls for the same credential-definition id are interleaved so
that both cache checks run before either fetch completes (the cache write
sits after the awaited fetch), the model issues two remote fetches and
two cache writes; under the sequential schedule a single fetch and a
single write happen and the second caller receives the first caller's
bundle from the cache. -/
theorem C7_doubleFetch :
    (runSchedule fixtureResolverEnv fixtureResolveParams initConcSystem
        [TaskId.one, TaskId.two, TaskId.one, TaskId.two]).shared.fetchCount = 2 ∧
    (runSchedule fixtureResolverEnv fixtureResolveParams initConcSystem
        [TaskId.one, TaskId.two, TaskId.one, TaskId.two]).shared.writeCount = 2 ∧
    (runSchedule fixtureResolverEnv fixtureResolveParams initConcSystem
        [TaskId.one, TaskId.one, TaskId.two]).shared.fetchCount = 1 ∧
    (runSchedule fixtureResolverEnv fixtureResolveParams initConcSystem
        [TaskId.one, TaskId.one, TaskId.two]).shared.writeCount = 1 ∧
    (runSchedule fixtureResolverEnv fixtureResolveParams initConcSystem
        [TaskId.one, TaskId.one, TaskId.two]).task2.result =
      (runSchedule fixtureResolverEnv fixtureResolveParams initConcSystem
        [TaskId.one, TaskId.one, TaskId.two]).task1.result :=
  ⟨rfl, rfl, rfl, rfl, rfl⟩

/-! ## Claim theorems: action button press (C9) -/

/-- C9 counterexample: with the agent set and the connection id set to
the empty string — both collaborators are set — the handler warns and
sends nothing, contradicting the claim that it sends whenever both
collaborators are set. -/
theorem C9_emptyConnectionId_counterexample :
    emptyConnHandlerState.agent.isSome = true ∧
    emptyConnHandlerState.connectionId.isSome = true ∧
    handleActionButtonPress emptyConnHandlerState "a1" "w1" none =
      [HandlerEffect.warn "Agent or connectionId not set for ActionMenuHandler"] := by
  decide

/-- C9 (amended): with no invitation link the handler sends exactly one
plain message — whose body is the JSON serialization of
`{workflowID, actionID: actionId, data: {}}` — if and only if the agent
is set and the connection id is set and non-empty; otherwise it only
logs a warning (no send). -/
theorem C9_actionPress_amended (st : ActionMenuHandlerState)
    (actionId workflowID : String) :
    (∀ c, st.agent.isSome = true → st.connectionId = some c → c.isEmpty = false →
      handleActionButtonPress st actionId workflowID none =
        [HandlerEffect.sendMessage c
          (Json.stringify (actionJSON actionId workflowID))]) ∧
    (st.agent.isSome = false ∨ strTruthy st.connectionId = false →
      handleActionButtonPress st actionId workflowID none =
        [HandlerEffect.warn "Agent or connectionId not set for ActionMenuHandler"]) ∧
    ((∃ c body, handleActionButtonPress st actionId workflowID none =
        [HandlerEffect.sendMessage c body]) ↔
      st.agent.isSome = true ∧ strTruthy st.connectionId = true) := by
  unfold handleActionButtonPress
  refine ⟨?_, ?_, ?_⟩
  · intro c hagent hconn hce
    simp [hagent, hconn, strTruthy, hce, Option.isNone]
    cases ha : st.agent with
    | none => rw [ha] at hagent; exact absurd hagent (by simp)
    | some u => simp [ha, strTruthy, hce]
  · intro h
    rcases h with h | h
    · have : st.agent.isNone = true := by
        cases ha : st.agent with
        | none => rfl
        | some u => rw [ha] at h; exact absurd h (by simp)
      simp [this]
    · simp [h]
  · constructor
    · rintro ⟨c, body, heq⟩
      by_cases hguard : st.agent.isNone = true ∨ strTruthy st.connectionId = false
      · have : (if st.agent.isNone || !(strTruthy st.connectionId) then
            [HandlerEffect.warn "Agent or connectionId not set for ActionMenuHandler"]
          else if strTruthy (none : Option String) then
            [HandlerEffect.connectToInvitation ((none : Option String).getD "")]
          else
            [HandlerEffect.sendMessage (st.connectionId.getD "")
              (Json.stringify (actionJSON actionId workflowID))]) =
            [HandlerEffect.warn "Agent or connectionId not set for ActionMenuHandler"] := by
          rcases hguard with h | h
          · simp [h]
          · simp [h]
        rw [this] at heq
        simp at heq
      · push_neg at hguard
        obtain ⟨h1, h2⟩ := hguard
        constructor
        · cases ha : st.agent with
          | none => rw [ha] at h1; exact absurd rfl h1
          | some u => rfl
        · cases hs : strTruthy st.connectionId with
          | false => exact absurd hs h2
          | true => rfl
    · rintro ⟨h1, h2⟩
      refine ⟨st.connectionId.getD "",
        Json.stringify (actionJSON actionId workflowID), ?_⟩
      have hn : st.agent.isNone = false := by
        cases ha : st.agent with
        | none => rw [ha] at h1; exact absurd h1 (by simp)
        | some u => rfl
      simp [hn, h2]
      rfl

/-- C9 witness: a configured handler sends exactly one message carrying
the serialized action object. -/
theorem C9_actionPress_amended_witness :
    handleActionButtonPress configuredHandlerState "a1" "w1" none =
      [HandlerEffect.sendMessage "conn1"
        (Json.stringify (actionJSON "a1" "w1"))] :=
  (C9_actionPress_amended configuredHandlerState "a1" "w1").1 "conn1" rfl rfl rfl
